import Mathlib

/-!
Shallow embedding of `src/buttrest.py` (the ButtRest service): the device
registry adapter, resource renderers, request handlers and error taxonomy,
together with theorems settling the specification's claims against it.

Python machine details carried over explicitly:
* list subscription `xs[i]` wraps negative indices Python-style (`pyListGet`);
* dict subscription `m[k]` fails with `KeyError` on a missing key (`dictLookup`);
* `str(exc)` on an exception built with one constructor argument prints that
  argument (CPython sets `args` in `BaseException.__new__` even when a
  subclass `__init__` does not call `super().__init__`);
* a Sanic handler that returns a value which is not an `HTTPResponse`
  (e.g. an exception object) makes Sanic raise an internal 500
  `Invalid response type` error — modelled in `dispatch`.
-/

/-- Sensor reading values are ints or floats; floats are modelled as
rationals (the service only passes them through and never computes). -/
inductive Number where
  | int (n : Int)
  | float (q : ℚ)
deriving DecidableEq

/-- A sensor handle (`buttplug.client.Sensor`): ordinal index and description. -/
structure Sensor where
  index : Int
  description : String
deriving DecidableEq

/-- An actuator handle (`buttplug.client.Actuator`): ordinal index,
description and step count. All three actuator categories share this shape. -/
structure Actuator where
  index : Int
  description : String
  step_count : Nat
deriving DecidableEq

/-- A device handle (`buttplug.Device`): index, name and the four child
collections (`sensors`, `actuators`, `linear_actuators`, `rotatory_actuators`). -/
structure Device where
  index : Int
  name : String
  sensors : List Sensor
  actuators : List Actuator
  linear_actuators : List Actuator
  rotatory_actuators : List Actuator
deriving DecidableEq

/-- The buttplug client handle: `connected` flag and `client.devices`, a dict
from int index to device, modelled as an insertion-ordered association list. -/
structure Client where
  connected : Bool
  devices : List (Int × Device)
deriving DecidableEq

/-- Python list subscription `xs[i]`: a negative index counts from the end;
`none` models an `IndexError`. -/
def pyListGet {α : Type} (xs : List α) (i : Int) : Option α :=
  let j : Int := if i < 0 then (xs.length : Int) + i else i
  if 0 ≤ j then xs[j.toNat]? else none

/-- Python dict subscription `m[k]` on an association list; `none` models a
`KeyError`. -/
def dictLookup {α : Type} (m : List (Int × α)) (k : Int) : Option α :=
  match m.find? (fun p => p.fst == k) with
  | some p => some p.snd
  | none => none

/-- The keys of the `client.devices` dict, in insertion order. -/
def dictKeys (m : List (Int × Device)) : List Int := m.map Prod.fst

/-- The exceptions a request path can raise.  `connectionError` is
`ButtPlugConnectionError` (502), the three not-found errors subclass Sanic's
`NotFound` (404), `serverError` is Sanic's `ServerError` (500) carrying a
hardware error message, and `keyError` / `indexError` are plain Python
exceptions, not `SanicException`s. -/
inductive AppError where
  | connectionError
  | deviceNotFound (device_id : Int)
  | sensorNotFound (sensor_id : Int)
  | actuatorNotFound (actuator_id : Int)
  | serverError (msg : String)
  | keyError (k : Int)
  | indexError
deriving DecidableEq

/-- Whether the raised exception is a `SanicException` and therefore handled
by the `handle_exception` handler registered with `app.exception`. -/
def AppError.isSanicException : AppError → Bool
  | .keyError _ => false
  | .indexError => false
  | _ => true

/-- Source `exception.status_code` of the corresponding Sanic exception class. -/
def AppError.status : AppError → Nat
  | .connectionError => 502
  | .deviceNotFound _ => 404
  | .sensorNotFound _ => 404
  | .actuatorNotFound _ => 404
  | .serverError _ => 500
  | .keyError _ => 500
  | .indexError => 500

/-- Source `exception.message`: the not-found classes set it in `__init__`,
`ButtPlugConnectionError` declares it as a class attribute; a `ServerError`
built with a positional message leaves the class attribute (empty string). -/
def AppError.title : AppError → String
  | .connectionError => "Client Connection Failed"
  | .deviceNotFound _ => "Device Not Found"
  | .sensorNotFound _ => "Sensor Not Found"
  | .actuatorNotFound _ => "Actuator Not Found"
  | .serverError _ => ""
  | .keyError _ => ""
  | .indexError => ""

/-- Source `str(exception)`.  The not-found constructors receive the offending id as
their single positional argument, so CPython prints it; the connection error
is constructed from its class message. -/
def AppError.detailStr : AppError → String
  | .connectionError => "Client Connection Failed"
  | .deviceNotFound device_id => toString device_id
  | .sensorNotFound sensor_id => toString sensor_id
  | .actuatorNotFound actuator_id => toString actuator_id
  | .serverError msg => msg
  | .keyError k => toString k
  | .indexError => "list index out of range"

/-- Source `get_client()`: the active client, or `ButtPlugConnectionError` when the
client reports not-connected. -/
def get_client (c : Client) : Except AppError Client :=
  if c.connected then Except.ok c else Except.error AppError.connectionError

/-- Source `get_device(device_id)`: length-guarded dict subscription of
`client.devices`. -/
def get_device (c : Client) (device_id : Int) : Except AppError Device :=
  match get_client c with
  | Except.error e => Except.error e
  | Except.ok cl =>
    if (cl.devices.length : Int) ≤ device_id then
      Except.error (AppError.deviceNotFound device_id)
    else
      match dictLookup cl.devices device_id with
      | some d => Except.ok d
      | none => Except.error (AppError.keyError device_id)

/-- Source `get_sensor(device_id, sensor_id)`: length-guarded list subscription of
`device.sensors`. -/
def get_sensor (c : Client) (device_id sensor_id : Int) : Except AppError Sensor :=
  match get_device c device_id with
  | Except.error e => Except.error e
  | Except.ok device =>
    if (device.sensors.length : Int) ≤ sensor_id then
      Except.error (AppError.sensorNotFound sensor_id)
    else
      match pyListGet device.sensors sensor_id with
      | some s => Except.ok s
      | none => Except.error AppError.indexError

/-- Source `get_actuator(device_id, actuator_id)` over `device.actuators`. -/
def get_actuator (c : Client) (device_id actuator_id : Int) : Except AppError Actuator :=
  match get_device c device_id with
  | Except.error e => Except.error e
  | Except.ok device =>
    if (device.actuators.length : Int) ≤ actuator_id then
      Except.error (AppError.actuatorNotFound actuator_id)
    else
      match pyListGet device.actuators actuator_id with
      | some a => Except.ok a
      | none => Except.error AppError.indexError

/-- Source `get_linear_actuator(device_id, actuator_id)` over `device.linear_actuators`. -/
def get_linear_actuator (c : Client) (device_id actuator_id : Int) : Except AppError Actuator :=
  match get_device c device_id with
  | Except.error e => Except.error e
  | Except.ok device =>
    if (device.linear_actuators.length : Int) ≤ actuator_id then
      Except.error (AppError.actuatorNotFound actuator_id)
    else
      match pyListGet device.linear_actuators actuator_id with
      | some a => Except.ok a
      | none => Except.error AppError.indexError

/-- Source `get_rotatory_actuator(device_id, actuator_id)` over
`device.rotatory_actuators`. -/
def get_rotatory_actuator (c : Client) (device_id actuator_id : Int) : Except AppError Actuator :=
  match get_device c device_id with
  | Except.error e => Except.error e
  | Except.ok device =>
    if (device.rotatory_actuators.length : Int) ≤ actuator_id then
      Except.error (AppError.actuatorNotFound actuator_id)
    else
      match pyListGet device.rotatory_actuators actuator_id with
      | some a => Except.ok a
      | none => Except.error AppError.indexError

/-- Source `app.url_for("device_get", device_id=d)` for route `/devices/<device_id:int>`. -/
def url_device_get (device_id : Int) : String := s!"/devices/{device_id}"

/-- Source `app.url_for("sensor_get", ...)` for route `/devices/<device_id:int>/sensors/<sensor_id:int>`. -/
def url_sensor_get (device_id sensor_id : Int) : String :=
  s!"/devices/{device_id}/sensors/{sensor_id}"

/-- Source `app.url_for("sensor_reading_get", ...)` for the `/read` sub-resource. -/
def url_sensor_reading_get (device_id sensor_id : Int) : String :=
  s!"/devices/{device_id}/sensors/{sensor_id}/read"

/-- Source `app.url_for("actuator_get", ...)` for route `/devices/<device_id:int>/actuators/<actuator_id:int>`. -/
def url_actuator_get (device_id actuator_id : Int) : String :=
  s!"/devices/{device_id}/actuators/{actuator_id}"

/-- Source `app.url_for("linear_actuator_get", ...)`. -/
def url_linear_actuator_get (device_id actuator_id : Int) : String :=
  s!"/devices/{device_id}/linear_actuators/{actuator_id}"

/-- Source `app.url_for("rotatory_actuator_get", ...)`. -/
def url_rotatory_actuator_get (device_id actuator_id : Int) : String :=
  s!"/devices/{device_id}/rotatory_actuators/{actuator_id}"

/-- Rendered `DeviceItem` DTO (`@id`, `@type`, name and the four link lists). -/
structure DeviceItem where
  id : String
  type : String
  name : String
  sensors : List String
  actuators : List String
  linear_actuators : List String
  rotatory_actuators : List String
deriving DecidableEq

/-- Rendered `SensorItem` DTO. -/
structure SensorItem where
  id : String
  type : String
  description : String
  sensor_reading : String
deriving DecidableEq

/-- Rendered `SensorReadingItem` DTO; `instant` is the captured UTC instant
(`datetime.now(timezone.utc)`), modelled as an abstract clock value. -/
structure SensorReadingItem where
  id : String
  type : String
  instant : Nat
  value : List Number
deriving DecidableEq

/-- Rendered `ActuatorItem` DTO.  The pydantic `@type` field defaults to
`"Actuator"`; `render_actuator` never overrides it. -/
structure ActuatorItem where
  id : String
  type : String
  description : String
  step_count : Nat
deriving DecidableEq

/-- Default `@type` declared by the `LinearActuatorItem` pydantic schema. -/
def LinearActuatorItem_type : String := "LinearActuator"

/-- Default `@type` declared by the `RotatoryActuatorItem` pydantic schema. -/
def RotatoryActuatorItem_type : String := "RotatoryActuator"

/-- Source `render_device(device)`: identity URL from `device.index` plus the four
child link lists, one link per element of each collection. -/
def render_device (device : Device) : DeviceItem :=
  { id := url_device_get device.index
  , type := "Device"
  , name := device.name
  , sensors := device.sensors.map (fun s => url_sensor_get device.index s.index)
  , actuators := device.actuators.map (fun la => url_actuator_get device.index la.index)
  , linear_actuators :=
      device.linear_actuators.map (fun la => url_linear_actuator_get device.index la.index)
  , rotatory_actuators :=
      device.rotatory_actuators.map (fun ra => url_rotatory_actuator_get device.index ra.index) }

/-- Source `render_sensor(device_id, sensor)`. -/
def render_sensor (device_id : Int) (sensor : Sensor) : SensorItem :=
  { id := url_sensor_get device_id sensor.index
  , type := "Sensor"
  , description := sensor.description
  , sensor_reading := url_sensor_reading_get device_id sensor.index }

/-- Source `render_sensor_reading(device_id, sensor, readings)`; `now` models the
`datetime.now(timezone.utc)` call made inside the function. -/
def render_sensor_reading (device_id : Int) (sensor : Sensor) (readings : List Number)
    (now : Nat) : SensorReadingItem :=
  { id := url_sensor_reading_get device_id sensor.index
  , type := "SensorReading"
  , instant := now
  , value := readings }

/-- Source `render_actuator(device_id, actuator)`: the identity URL is always built
with the `actuator_get` route and `@type` is always the `ActuatorItem`
default `"Actuator"`, for all three actuator categories. -/
def render_actuator (device_id : Int) (actuator : Actuator) : ActuatorItem :=
  { id := url_actuator_get device_id actuator.index
  , type := "Actuator"
  , description := actuator.description
  , step_count := actuator.step_count }

/-- A pydantic validation error record: location, error type, message and
context, as produced by `PydanticValidationError.errors()`. -/
structure PydErr where
  loc : String
  type : String
  msg : String
  ctx : Option String
deriving DecidableEq

/-- One entry of the 422 problem body's `errors` array, as assembled by
`handle_validation_error` (pointer, ctx, code, detail). -/
structure FieldError where
  pointer : String
  ctx : Option String
  code : String
  detail : String
deriving DecidableEq

/-- The RFC 9457 body built by `handle_validation_error`. -/
structure ValidationProblem where
  type : String
  title : String
  status : Nat
  detail : String
  errors : List FieldError
deriving DecidableEq

/-- The uniform problem body built by `handle_exception`
(`title`, `status`, `detail`). -/
structure ProblemBody where
  title : String
  status : Nat
  detail : String
deriving DecidableEq

/-- Response bodies the service can serialize. -/
inductive Body where
  | statusOk
  | deviceItem (d : DeviceItem)
  | deviceList (l : List DeviceItem)
  | sensorItem (s : SensorItem)
  | sensorList (l : List SensorItem)
  | sensorReading (r : SensorReadingItem)
  | actuatorItem (a : ActuatorItem)
  | actuatorList (l : List ActuatorItem)
  | problem (p : ProblemBody)
  | validationProblem (p : ValidationProblem)
deriving DecidableEq

/-- An HTTP response: status code plus serialized body. -/
structure HttpResponse where
  status : Nat
  body : Body
deriving DecidableEq

/-- What a handler invocation does: return an `HTTPResponse`, raise an
exception, or return a value that is not a response (the sensor-read
handler returns a `ServerError` object on timeout). -/
inductive HandlerResult where
  | response (r : HttpResponse)
  | raised (e : AppError)
  | returnedObj (status_code : Nat) (message : String)
deriving DecidableEq

/-- Lift the registry adapter's `Except` flow into a handler result. -/
def liftE (x : Except AppError HttpResponse) : HandlerResult :=
  match x with
  | Except.ok r => HandlerResult.response r
  | Except.error e => HandlerResult.raised e

/-- Environment a handler runs in: the wall clock read by
`datetime.now(timezone.utc)`, abstracted to a counter. -/
structure Env where
  now : Nat
deriving DecidableEq

/-- Outcome of the awaited hardware sensor read inside
`asyncio.wait_for(sensor.read(), timeout=1.0)`: values within the deadline,
or the 1-second timeout. -/
inductive ReadOutcome where
  | ok (values : List Number)
  | timeout
deriving DecidableEq

/-- Outcome of an awaited `actuator.command(...)` call: acknowledgement or a
`ButtplugError` with a message. -/
inductive CommandOutcome where
  | ok
  | hwError (msg : String)
deriving DecidableEq

/-- Parsed body of `ActuatorCommand` as received by the validator; an absent
field is `none`.  Floats are rationals (exact for the literals involved). -/
structure ActuatorCommandPayload where
  intensity : Option ℚ
deriving DecidableEq

/-- Parsed body of `LinearActuatorCommand`. -/
structure LinearActuatorCommandPayload where
  duration : Option Int
  position : Option ℚ
deriving DecidableEq

/-- Parsed body of `RotatoryActuatorCommand`; `clockwise` is optional with
default `false`. -/
structure RotatoryActuatorCommandPayload where
  speed : Option ℚ
  clockwise : Option Bool
deriving DecidableEq

/-- Pydantic validation of one required float field with `ge=0.0, le=1.0`
(the `intensity`, `position` and `speed` fields). -/
def validateUnitFloatField (loc : String) (v : Option ℚ) : List PydErr :=
  match v with
  | none => [⟨loc, "missing", "Field required", none⟩]
  | some q =>
      (if q < 0 then
        [⟨loc, "greater_than_equal", "Input should be greater than or equal to 0", some "ge=0"⟩]
       else []) ++
      (if 1 < q then
        [⟨loc, "less_than_equal", "Input should be less than or equal to 1", some "le=1"⟩]
       else [])

/-- Pydantic validation of the required `duration` int field with `ge=0`. -/
def validateDurationField (v : Option Int) : List PydErr :=
  match v with
  | none => [⟨"duration", "missing", "Field required", none⟩]
  | some n =>
      if n < 0 then
        [⟨"duration", "greater_than_equal", "Input should be greater than or equal to 0", some "ge=0"⟩]
      else []

/-- Validation of an `ActuatorCommand` body: `intensity` required, in `[0, 1]`. -/
def validateActuatorCommand (p : ActuatorCommandPayload) : List PydErr :=
  validateUnitFloatField "intensity" p.intensity

/-- Validation of a `LinearActuatorCommand` body: `duration` required int
`≥ 0`, `position` required float in `[0, 1]`; pydantic reports the fields in
declaration order and does not stop at the first failure. -/
def validateLinearActuatorCommand (p : LinearActuatorCommandPayload) : List PydErr :=
  validateDurationField p.duration ++ validateUnitFloatField "position" p.position

/-- Validation of a `RotatoryActuatorCommand` body: `speed` required float in
`[0, 1]`; `clockwise` optional boolean (never fails in this typed model). -/
def validateRotatoryActuatorCommand (p : RotatoryActuatorCommandPayload) : List PydErr :=
  validateUnitFloatField "speed" p.speed

/-- One `errors` entry built by `handle_validation_error` from a pydantic
error record: the pointer is a slash followed by `loc[0]`. -/
def toFieldError (e : PydErr) : FieldError :=
  { pointer := "/" ++ e.loc
  , ctx := e.ctx
  , code := e.type
  , detail := e.msg }

/-- Source `handle_validation_error`: the 422 RFC 9457 problem response listing one
entry per pydantic error. -/
def handle_validation_error (errs : List PydErr) : HttpResponse :=
  { status := 422
  , body := Body.validationProblem
      { type := "https://problems-registry.smartbear.com/validation-error"
      , title := "Validation Error"
      , status := 422
      , detail := "Request validation failed"
      , errors := errs.map toFieldError } }

/-- Sanic request dispatch around a handler invocation: a returned
`HTTPResponse` passes through; a raised `SanicException` is rendered by the
registered `handle_exception` (title from `exception.message`, detail from
`str(exception)`); any other raised exception becomes the framework's
generic 500; a returned value that is not a response makes Sanic raise
`ServerError("Invalid response type ...")`, a 500. -/
def dispatch (h : HandlerResult) : HttpResponse :=
  match h with
  | HandlerResult.response r => r
  | HandlerResult.raised e =>
      if e.isSanicException then
        { status := e.status, body := Body.problem ⟨e.title, e.status, e.detailStr⟩ }
      else
        { status := 500, body := Body.problem ⟨"Internal Server Error", 500, ""⟩ }
  | HandlerResult.returnedObj _ _ =>
      { status := 500
      , body := Body.problem ⟨"Invalid response type", 500, "Invalid response type"⟩ }

/-- Source `POST /scan`: resolves the client, runs the 3-second scan window, returns
an ok status. -/
def scan (_env : Env) (c : Client) : HandlerResult :=
  liftE (match get_client c with
    | Except.error e => Except.error e
    | Except.ok _ => Except.ok { status := 200, body := Body.statusOk })

/-- Source `GET /devices`: renders every value of the `client.devices` dict. -/
def devices_get (_env : Env) (c : Client) : HandlerResult :=
  liftE (match get_client c with
    | Except.error e => Except.error e
    | Except.ok cl =>
        Except.ok { status := 200
                  , body := Body.deviceList ((cl.devices.map Prod.snd).map render_device) })

/-- Source `GET /devices/{device_id}`. -/
def device_get (_env : Env) (c : Client) (device_id : Int) : HandlerResult :=
  liftE (match get_device c device_id with
    | Except.error e => Except.error e
    | Except.ok device =>
        Except.ok { status := 200, body := Body.deviceItem (render_device device) })

/-- Source `GET /devices/{device_id}/sensors`. -/
def sensors_get (_env : Env) (c : Client) (device_id : Int) : HandlerResult :=
  liftE (match get_device c device_id with
    | Except.error e => Except.error e
    | Except.ok device =>
        Except.ok { status := 200
                  , body := Body.sensorList (device.sensors.map (render_sensor device_id)) })

/-- Source `GET /devices/{device_id}/sensors/{sensor_id}`. -/
def sensor_get (_env : Env) (c : Client) (device_id sensor_id : Int) : HandlerResult :=
  liftE (match get_sensor c device_id sensor_id with
    | Except.error e => Except.error e
    | Except.ok sensor =>
        Except.ok { status := 200, body := Body.sensorItem (render_sensor device_id sensor) })

/-- Source `GET /devices/{device_id}/sensors/{sensor_id}/read`: looks the sensor up,
awaits the hardware read under a 1-second `asyncio.wait_for`, and on success
renders the reading with a fresh UTC instant.  On `TimeoutError` the handler
RETURNS (instead of raising) a `ServerError(status_code=504, message="Sensor
read timed out")` object. -/
def sensor_reading_get (env : Env) (c : Client) (device_id sensor_id : Int)
    (outcome : ReadOutcome) : HandlerResult :=
  match get_sensor c device_id sensor_id with
  | Except.error e => HandlerResult.raised e
  | Except.ok sensor =>
      match outcome with
      | ReadOutcome.ok readings =>
          HandlerResult.response
            { status := 200
            , body := Body.sensorReading
                (render_sensor_reading device_id sensor readings env.now) }
      | ReadOutcome.timeout =>
          HandlerResult.returnedObj 504 "Sensor read timed out"

/-- Source `GET /devices/{device_id}/actuators`. -/
def actuators_get (_env : Env) (c : Client) (device_id : Int) : HandlerResult :=
  liftE (match get_device c device_id with
    | Except.error e => Except.error e
    | Except.ok device =>
        Except.ok { status := 200
                  , body := Body.actuatorList (device.actuators.map (render_actuator device_id)) })

/-- Source `GET /devices/{device_id}/actuators/{actuator_id}`. -/
def actuator_get (_env : Env) (c : Client) (device_id actuator_id : Int) : HandlerResult :=
  liftE (match get_actuator c device_id actuator_id with
    | Except.error e => Except.error e
    | Except.ok actuator =>
        Except.ok { status := 200, body := Body.actuatorItem (render_actuator device_id actuator) })

/-- Source `POST /devices/{device_id}/actuators/{actuator_id}`: the `@validate`
decorator validates the body BEFORE the handler body runs; on success the
handler resolves the actuator and awaits `actuator.command(intensity)`,
translating a `ButtplugError` into a `ServerError`. -/
def actuator_post (_env : Env) (c : Client) (device_id actuator_id : Int)
    (p : ActuatorCommandPayload) (hw : CommandOutcome) : HandlerResult :=
  match validateActuatorCommand p with
  | [] =>
      liftE (match get_actuator c device_id actuator_id with
        | Except.error e => Except.error e
        | Except.ok _ =>
            match hw with
            | CommandOutcome.ok => Except.ok { status := 200, body := Body.statusOk }
            | CommandOutcome.hwError msg => Except.error (AppError.serverError msg))
  | errs => HandlerResult.response (handle_validation_error errs)

/-- Source `GET /devices/{device_id}/linear_actuators`: maps `render_actuator` over
`device.linear_actuators`. -/
def linear_actuators_get (_env : Env) (c : Client) (device_id : Int) : HandlerResult :=
  liftE (match get_device c device_id with
    | Except.error e => Except.error e
    | Except.ok device =>
        Except.ok { status := 200
                  , body := Body.actuatorList
                      (device.linear_actuators.map (render_actuator device_id)) })

/-- Source `GET /devices/{device_id}/linear_actuators/{actuator_id}`. -/
def linear_actuator_get (_env : Env) (c : Client) (device_id actuator_id : Int) : HandlerResult :=
  liftE (match get_linear_actuator c device_id actuator_id with
    | Except.error e => Except.error e
    | Except.ok actuator =>
        Except.ok { status := 200, body := Body.actuatorItem (render_actuator device_id actuator) })

/-- Source `POST /devices/{device_id}/linear_actuators/{actuator_id}`. -/
def linear_actuator_post (_env : Env) (c : Client) (device_id actuator_id : Int)
    (p : LinearActuatorCommandPayload) (hw : CommandOutcome) : HandlerResult :=
  match validateLinearActuatorCommand p with
  | [] =>
      liftE (match get_linear_actuator c device_id actuator_id with
        | Except.error e => Except.error e
        | Except.ok _ =>
            match hw with
            | CommandOutcome.ok => Except.ok { status := 200, body := Body.statusOk }
            | CommandOutcome.hwError msg => Except.error (AppError.serverError msg))
  | errs => HandlerResult.response (handle_validation_error errs)

/-- Source `GET /devices/{device_id}/rotatory_actuators`: the source iterates
`device.linear_actuators` here (not `device.rotatory_actuators`). -/
def rotatory_actuators_get (_env : Env) (c : Client) (device_id : Int) : HandlerResult :=
  liftE (match get_device c device_id with
    | Except.error e => Except.error e
    | Except.ok device =>
        Except.ok { status := 200
                  , body := Body.actuatorList
                      (device.linear_actuators.map (render_actuator device_id)) })

/-- Source `GET /devices/{device_id}/rotatory_actuators/{actuator_id}`. -/
def rotatory_actuator_get (_env : Env) (c : Client) (device_id actuator_id : Int) : HandlerResult :=
  liftE (match get_rotatory_actuator c device_id actuator_id with
    | Except.error e => Except.error e
    | Except.ok actuator =>
        Except.ok { status := 200, body := Body.actuatorItem (render_actuator device_id actuator) })

/-- Source `POST /devices/{device_id}/rotatory_actuators/{actuator_id}`. -/
def rotatory_actuator_post (_env : Env) (c : Client) (device_id actuator_id : Int)
    (p : RotatoryActuatorCommandPayload) (hw : CommandOutcome) : HandlerResult :=
  match validateRotatoryActuatorCommand p with
  | [] =>
      liftE (match get_rotatory_actuator c device_id actuator_id with
        | Except.error e => Except.error e
        | Except.ok _ =>
            match hw with
            | CommandOutcome.ok => Except.ok { status := 200, body := Body.statusOk }
            | CommandOutcome.hwError msg => Except.error (AppError.serverError msg))
  | errs => HandlerResult.response (handle_validation_error errs)

/-- The 502 problem response produced when `ButtPlugConnectionError` is
raised and rendered by `handle_exception`. -/
def connectionFailedResponse : HttpResponse :=
  { status := 502
  , body := Body.problem ⟨"Client Connection Failed", 502, "Client Connection Failed"⟩ }

/-- Fixture: first sensor of the example device. -/
def sensor0 : Sensor := ⟨0, "s0"⟩

/-- Fixture: second sensor of the example device. -/
def sensor1 : Sensor := ⟨1, "s1"⟩

/-- Fixture: plain actuator of the example device. -/
def actuator0 : Actuator := ⟨0, "a0", 10⟩

/-- Fixture: linear actuator of the example devices. -/
def linActuator0 : Actuator := ⟨0, "la0", 20⟩

/-- Fixture: rotatory actuator of the example device. -/
def rotActuator0 : Actuator := ⟨0, "ra0", 30⟩

/-- Fixture: a device with two sensors and one actuator of each category. -/
def device0 : Device := ⟨0, "dev0", [sensor0, sensor1], [actuator0], [linActuator0], [rotActuator0]⟩

/-- Fixture: a second device, with one linear actuator and no rotatory
actuator. -/
def device1 : Device := ⟨1, "dev1", [], [], [linActuator0], []⟩

/-- Fixture: a connected client with `device0` registered under key 0. -/
def clientEx : Client := ⟨true, [(0, device0)]⟩

/-- Fixture: a connected client with devices under keys 0 and 1. -/
def clientTwo : Client := ⟨true, [(0, device0), (1, device1)]⟩

/-- Fixture: a disconnected client. -/
def clientDisc : Client := ⟨false, [(0, device0)]⟩

/-- Fixture: a registry whose key set is not `0..len-1`: one device under
key 1 (as after a device drop-out mid-session). -/
def clientGap : Client := ⟨true, [(1, device0)]⟩

/-- Fixture: an environment with the clock at 0. -/
def envEx : Env := ⟨0⟩

deriving instance DecidableEq for Except

/-- A required unit-interval float field is offending when it is absent or
its value lies outside `[0, 1]`. -/
def unitFieldOffends (v : Option ℚ) : Prop :=
  v = none ∨ ∃ q, v = some q ∧ (q < 0 ∨ 1 < q)

/-- The required `duration` int field is offending when absent or negative. -/
def durationOffends (v : Option Int) : Prop :=
  v = none ∨ ∃ n, v = some n ∧ n < 0

/-- Disconnected client: `get_client` raises `ButtPlugConnectionError`. -/
theorem get_client_disconnected {c : Client} (h : c.connected = false) :
    get_client c = Except.error AppError.connectionError := by
  simp [get_client, h]

/-- Disconnected client: `get_device` fails with the connection error. -/
theorem get_device_disconnected {c : Client} (h : c.connected = false) (device_id : Int) :
    get_device c device_id = Except.error AppError.connectionError := by
  simp [get_device, get_client_disconnected h]

/-- Disconnected client: `get_sensor` fails with the connection error. -/
theorem get_sensor_disconnected {c : Client} (h : c.connected = false)
    (device_id sensor_id : Int) :
    get_sensor c device_id sensor_id = Except.error AppError.connectionError := by
  simp [get_sensor, get_device_disconnected h]

/-- Disconnected client: `get_actuator` fails with the connection error. -/
theorem get_actuator_disconnected {c : Client} (h : c.connected = false)
    (device_id actuator_id : Int) :
    get_actuator c device_id actuator_id = Except.error AppError.connectionError := by
  simp [get_actuator, get_device_disconnected h]

/-- Disconnected client: `get_linear_actuator` fails with the connection error. -/
theorem get_linear_actuator_disconnected {c : Client} (h : c.connected = false)
    (device_id actuator_id : Int) :
    get_linear_actuator c device_id actuator_id = Except.error AppError.connectionError := by
  simp [get_linear_actuator, get_device_disconnected h]

/-- Disconnected client: `get_rotatory_actuator` fails with the connection error. -/
theorem get_rotatory_actuator_disconnected {c : Client} (h : c.connected = false)
    (device_id actuator_id : Int) :
    get_rotatory_actuator c device_id actuator_id = Except.error AppError.connectionError := by
  simp [get_rotatory_actuator, get_device_disconnected h]

/-- Dispatching a raised `ButtPlugConnectionError` yields the 502 problem. -/
theorem dispatch_raised_connectionError :
    dispatch (HandlerResult.raised AppError.connectionError) = connectionFailedResponse := rfl

/-- A key absent from the dict's key set makes subscription a `KeyError`. -/
theorem dictLookup_eq_none_of_not_mem {m : List (Int × Device)} {k : Int}
    (h : ¬ k ∈ dictKeys m) : dictLookup m k = none := by
  have hf : m.find? (fun p => p.fst == k) = none := by
    rw [List.find?_eq_none]
    intro p hp hbeq
    have hfst : p.fst = k := by simpa using hbeq
    exact h (List.mem_map.mpr ⟨p, hp, hfst⟩)
  simp [dictLookup, hf]

/-- Every error produced for a unit-interval float field carries that
field's location. -/
theorem validateUnitFloatField_loc (loc : String) (v : Option ℚ) :
    ∀ e ∈ validateUnitFloatField loc v, e.loc = loc := by
  intro e he
  cases v with
  | none =>
    simp only [validateUnitFloatField, List.mem_singleton] at he
    subst he; rfl
  | some q =>
    simp only [validateUnitFloatField] at he
    rcases List.mem_append.mp he with h | h <;>
    · split_ifs at h
      · simp only [List.mem_singleton] at h
        subst h; rfl
      · simp at h

/-- A unit-interval float field produces errors exactly when it offends. -/
theorem validateUnitFloatField_ne_nil_iff (loc : String) (v : Option ℚ) :
    validateUnitFloatField loc v ≠ [] ↔ unitFieldOffends v := by
  cases v with
  | none => simp [validateUnitFloatField, unitFieldOffends]
  | some q =>
    simp only [validateUnitFloatField, unitFieldOffends]
    constructor
    · intro h
      refine Or.inr ⟨q, rfl, ?_⟩
      by_contra hq
      push_neg at hq
      exact h (by rw [if_neg (not_lt.mpr hq.1), if_neg (not_lt.mpr hq.2)]; rfl)
    · rintro (h | ⟨q', hq', hcase⟩)
      · exact absurd h (by simp)
      · have hqq : q = q' := by
          injection hq'
        subst hqq
        rcases hcase with h' | h'
        · rw [if_pos h']
          simp
        · rw [if_pos h']
          intro hc
          rcases List.append_eq_nil.mp hc with ⟨h1, h2⟩
          exact List.cons_ne_nil _ _ h2

/-- Every error produced for the duration field carries location `duration`. -/
theorem validateDurationField_loc (v : Option Int) :
    ∀ e ∈ validateDurationField v, e.loc = "duration" := by
  intro e he
  cases v with
  | none =>
    simp only [validateDurationField, List.mem_singleton] at he
    subst he; rfl
  | some n =>
    simp only [validateDurationField] at he
    split_ifs at he
    · simp only [List.mem_singleton] at he
      subst he; rfl
    · simp at he

/-- The duration field produces errors exactly when it offends. -/
theorem validateDurationField_ne_nil_iff (v : Option Int) :
    validateDurationField v ≠ [] ↔ durationOffends v := by
  cases v with
  | none => simp [validateDurationField, durationOffends]
  | some n =>
    simp only [validateDurationField, durationOffends]
    constructor
    · intro h
      refine Or.inr ⟨n, rfl, ?_⟩
      by_contra hn
      exact h (by rw [if_neg hn])
    · rintro (h | ⟨n', hn', hlt⟩)
      · exact absurd h (by simp)
      · have hnn : n = n' := by
          injection hn'
        subst hnn
        rw [if_pos hlt]
        simp

/-- Evaluation: an `intensity` of `3/2` fails exactly the upper bound. -/
theorem validateActuatorCommand_three_halves :
    validateActuatorCommand { intensity := some (3/2) } =
      [⟨"intensity", "less_than_equal", "Input should be less than or equal to 1", some "le=1"⟩] := by
  simp only [validateActuatorCommand, validateUnitFloatField]
  rw [if_neg (by norm_num), if_pos (by norm_num)]
  rfl

/-- Evaluation: an `intensity` of `0` passes validation. -/
theorem validateActuatorCommand_zero :
    validateActuatorCommand { intensity := some 0 } = [] := by
  simp only [validateActuatorCommand, validateUnitFloatField]
  rw [if_neg (by norm_num), if_neg (by norm_num)]
  rfl

/-- Claim C1 (code bug): the rotatory-actuator list endpoint does not render
the device's rotatory collection.  Device 1 of `clientTwo` has one linear
actuator and no rotatory actuator, yet `GET /devices/1/rotatory_actuators`
returns one entry, rendered from the linear collection. -/
theorem c1_rotatory_list_renders_linear_collection :
    rotatory_actuators_get envEx clientTwo 1 =
      HandlerResult.response ⟨200, Body.actuatorList [render_actuator 1 linActuator0]⟩ ∧
    device1.rotatory_actuators.length = 0 ∧
    device1.linear_actuators.length = 1 := by
  refine ⟨by decide, rfl, rfl⟩

/-- Claim C2 (code bug): the linear-actuator link rendered into the device
representation does not round-trip: dereferencing it through the linear
detail handler yields an item whose own identity URL is the plain-actuator
URL, different from the link. -/
theorem c2_rendered_link_does_not_roundtrip :
    (render_device device0).linear_actuators = ["/devices/0/linear_actuators/0"] ∧
    linear_actuator_get envEx clientEx 0 0 =
      HandlerResult.response
        ⟨200, Body.actuatorItem ⟨"/devices/0/actuators/0", "Actuator", "la0", 20⟩⟩ ∧
    ("/devices/0/linear_actuators/0" : String) ≠ "/devices/0/actuators/0" := by
  refine ⟨by decide, by decide, by decide⟩

/-- Claim C3 (code bug): on a sensor-read timeout the handler returns (rather
than raises) the `ServerError(status_code=504)` object, so the dispatched
HTTP response is the framework's 500 invalid-response error, not a 504. -/
theorem c3_timeout_returns_exception_object_surfaced_as_500 :
    sensor_reading_get envEx clientEx 0 0 ReadOutcome.timeout =
      HandlerResult.returnedObj 504 "Sensor read timed out" ∧
    dispatch (sensor_reading_get envEx clientEx 0 0 ReadOutcome.timeout) =
      ⟨500, Body.problem ⟨"Invalid response type", 500, "Invalid response type"⟩⟩ := by
  refine ⟨by decide, by decide⟩

/-- Claim C4 counterexample: sensor id `-1` is outside `[0, 2)` yet
`get_sensor` returns the device's last sensor instead of a not-found error
(Python negative list indexing). -/
theorem c4_counterexample_negative_id_returns_element :
    (-1 : Int) < 0 ∧
    get_sensor clientEx 0 (-1) = Except.ok sensor1 ∧
    sensor1 ∈ device0.sensors := by
  refine ⟨by decide, by decide, by decide⟩

/-- Claim C4 as amended: every id at or above the collection length fails
with the corresponding not-found error carrying that id, for all five lookup
operations (ids below zero are not bounds-checked). -/
theorem c4_amended_upper_bound_not_found :
    (∀ (c : Client) (id : Int), c.connected = true →
        (c.devices.length : Int) ≤ id →
        get_device c id = Except.error (AppError.deviceNotFound id)) ∧
    (∀ (c : Client) (did : Int) (dev : Device) (sid : Int),
        get_device c did = Except.ok dev → (dev.sensors.length : Int) ≤ sid →
        get_sensor c did sid = Except.error (AppError.sensorNotFound sid)) ∧
    (∀ (c : Client) (did : Int) (dev : Device) (aid : Int),
        get_device c did = Except.ok dev → (dev.actuators.length : Int) ≤ aid →
        get_actuator c did aid = Except.error (AppError.actuatorNotFound aid)) ∧
    (∀ (c : Client) (did : Int) (dev : Device) (aid : Int),
        get_device c did = Except.ok dev → (dev.linear_actuators.length : Int) ≤ aid →
        get_linear_actuator c did aid = Except.error (AppError.actuatorNotFound aid)) ∧
    (∀ (c : Client) (did : Int) (dev : Device) (aid : Int),
        get_device c did = Except.ok dev → (dev.rotatory_actuators.length : Int) ≤ aid →
        get_rotatory_actuator c did aid = Except.error (AppError.actuatorNotFound aid)) := by
  refine ⟨?_, ?_, ?_, ?_, ?_⟩
  · intro c id hc hle
    simp [get_device, get_client, hc, hle]
  · intro c did dev sid hdev hle
    simp [get_sensor, hdev, hle]
  · intro c did dev aid hdev hle
    simp [get_actuator, hdev, hle]
  · intro c did dev aid hdev hle
    simp [get_linear_actuator, hdev, hle]
  · intro c did dev aid hdev hle
    simp [get_rotatory_actuator, hdev, hle]

/-- Claim C4 witness: the amended statement evaluated at concrete inputs. -/
theorem c4_amended_witness :
    get_device clientTwo 99 = Except.error (AppError.deviceNotFound 99) ∧
    get_sensor clientEx 0 5 = Except.error (AppError.sensorNotFound 5) := by
  constructor
  · exact c4_amended_upper_bound_not_found.1 clientTwo 99 rfl (by decide)
  · exact c4_amended_upper_bound_not_found.2.1 clientEx 0 device0 5 (by decide) (by decide)

/-- Claim C8 (code bug): `render_actuator` gives every actuator category the
plain `"Actuator"` discriminator, so the linear and rotatory detail endpoints
return items whose `@type` equals the plain one and differs from the
`LinearActuatorItem` / `RotatoryActuatorItem` schema defaults. -/
theorem c8_type_discriminator_always_plain_actuator :
    (render_actuator 0 linActuator0).type = "Actuator" ∧
    (render_actuator 0 rotActuator0).type = "Actuator" ∧
    linear_actuator_get envEx clientEx 0 0 =
      HandlerResult.response
        ⟨200, Body.actuatorItem ⟨"/devices/0/actuators/0", "Actuator", "la0", 20⟩⟩ ∧
    rotatory_actuator_get envEx clientEx 0 0 =
      HandlerResult.response
        ⟨200, Body.actuatorItem ⟨"/devices/0/actuators/0", "Actuator", "ra0", 30⟩⟩ ∧
    ("Actuator" : String) ≠ LinearActuatorItem_type ∧
    ("Actuator" : String) ≠ RotatoryActuatorItem_type := by
  refine ⟨by decide, by decide, by decide, by decide, by decide, by decide⟩

/-- Claim C9 counterexample: two sensor reads against an unchanged registry,
with identical raw readings but different clock instants, produce different
bodies — the read endpoint is not byte-identical across calls. -/
theorem c9_counterexample_read_body_differs :
    sensor_reading_get ⟨0⟩ clientEx 0 0 (ReadOutcome.ok [Number.int 5]) ≠
      sensor_reading_get ⟨1⟩ clientEx 0 0 (ReadOutcome.ok [Number.int 5]) := by
  decide

/-- Claim C9 as amended: every GET handler except the sensor-read path is
independent of the clock (byte-identical bodies on an unchanged registry),
while a rendered sensor reading differs whenever the capture instant does. -/
theorem c9_amended_get_determinism_except_read :
    (∀ (e1 e2 : Env) (c : Client), devices_get e1 c = devices_get e2 c) ∧
    (∀ (e1 e2 : Env) (c : Client) (did : Int), device_get e1 c did = device_get e2 c did) ∧
    (∀ (e1 e2 : Env) (c : Client) (did : Int), sensors_get e1 c did = sensors_get e2 c did) ∧
    (∀ (e1 e2 : Env) (c : Client) (did sid : Int),
        sensor_get e1 c did sid = sensor_get e2 c did sid) ∧
    (∀ (e1 e2 : Env) (c : Client) (did : Int), actuators_get e1 c did = actuators_get e2 c did) ∧
    (∀ (e1 e2 : Env) (c : Client) (did aid : Int),
        actuator_get e1 c did aid = actuator_get e2 c did aid) ∧
    (∀ (e1 e2 : Env) (c : Client) (did : Int),
        linear_actuators_get e1 c did = linear_actuators_get e2 c did) ∧
    (∀ (e1 e2 : Env) (c : Client) (did aid : Int),
        linear_actuator_get e1 c did aid = linear_actuator_get e2 c did aid) ∧
    (∀ (e1 e2 : Env) (c : Client) (did : Int),
        rotatory_actuators_get e1 c did = rotatory_actuators_get e2 c did) ∧
    (∀ (e1 e2 : Env) (c : Client) (did aid : Int),
        rotatory_actuator_get e1 c did aid = rotatory_actuator_get e2 c did aid) ∧
    (∀ (did : Int) (s : Sensor) (r : List Number) (t1 t2 : Nat), t1 ≠ t2 →
        render_sensor_reading did s r t1 ≠ render_sensor_reading did s r t2) := by
  refine ⟨fun _ _ _ => rfl, fun _ _ _ _ => rfl, fun _ _ _ _ => rfl, fun _ _ _ _ _ => rfl,
    fun _ _ _ _ => rfl, fun _ _ _ _ _ => rfl, fun _ _ _ _ => rfl, fun _ _ _ _ _ => rfl,
    fun _ _ _ _ => rfl, fun _ _ _ _ _ => rfl, ?_⟩
  intro did s r t1 t2 hne heq
  exact hne (congrArg SensorReadingItem.instant heq)

/-- Claim C9 witness: the clock-dependence conjunct at concrete instants. -/
theorem c9_amended_witness :
    render_sensor_reading 0 sensor0 [] 0 ≠ render_sensor_reading 0 sensor0 [] 1 :=
  c9_amended_get_determinism_except_read.2.2.2.2.2.2.2.2.2.2 0 sensor0 [] 0 1 (by decide)

/-- Every unit-float-field error has a nonempty code and message. -/
theorem validateUnitFloatField_entry_nonempty (loc : String) (v : Option ℚ) :
    ∀ e ∈ validateUnitFloatField loc v, e.type ≠ "" ∧ e.msg ≠ "" := by
  intro e he
  cases v with
  | none =>
    simp only [validateUnitFloatField, List.mem_singleton] at he
    subst he
    exact ⟨by simp, by simp⟩
  | some q =>
    simp only [validateUnitFloatField] at he
    rcases List.mem_append.mp he with h | h <;>
    · split_ifs at h
      · simp only [List.mem_singleton] at h
        subst h
        exact ⟨by simp, by simp⟩
      · simp at h

/-- Every duration-field error has a nonempty code and message. -/
theorem validateDurationField_entry_nonempty (v : Option Int) :
    ∀ e ∈ validateDurationField v, e.type ≠ "" ∧ e.msg ≠ "" := by
  intro e he
  cases v with
  | none =>
    simp only [validateDurationField, List.mem_singleton] at he
    subst he
    exact ⟨by simp, by simp⟩
  | some n =>
    simp only [validateDurationField] at he
    split_ifs at he
    · simp only [List.mem_singleton] at he
      subst he
      exact ⟨by simp, by simp⟩
    · simp at he

/-- Claim C5: a not-found failure raised from the device, sensor or actuator
detail endpoint dispatches to a 404 problem body whose title names the
category and whose detail is the offending ordinal id. -/
theorem c5_not_found_is_404_with_category_and_id :
    (∀ (env : Env) (c : Client) (id : Int), c.connected = true →
        (c.devices.length : Int) ≤ id →
        dispatch (device_get env c id) =
          ⟨404, Body.problem ⟨"Device Not Found", 404, toString id⟩⟩) ∧
    (∀ (env : Env) (c : Client) (did : Int) (dev : Device) (sid : Int),
        get_device c did = Except.ok dev → (dev.sensors.length : Int) ≤ sid →
        dispatch (sensor_get env c did sid) =
          ⟨404, Body.problem ⟨"Sensor Not Found", 404, toString sid⟩⟩) ∧
    (∀ (env : Env) (c : Client) (did : Int) (dev : Device) (aid : Int),
        get_device c did = Except.ok dev → (dev.actuators.length : Int) ≤ aid →
        dispatch (actuator_get env c did aid) =
          ⟨404, Body.problem ⟨"Actuator Not Found", 404, toString aid⟩⟩) := by
  refine ⟨?_, ?_, ?_⟩
  · intro env c id hc hle
    have hd : get_device c id = Except.error (AppError.deviceNotFound id) := by
      simp [get_device, get_client, hc, hle]
    simp [device_get, liftE, dispatch, hd, AppError.isSanicException, AppError.status,
      AppError.title, AppError.detailStr]
  · intro env c did dev sid hdev hle
    have hs : get_sensor c did sid = Except.error (AppError.sensorNotFound sid) := by
      simp [get_sensor, hdev, hle]
    simp [sensor_get, liftE, dispatch, hs, AppError.isSanicException, AppError.status,
      AppError.title, AppError.detailStr]
  · intro env c did dev aid hdev hle
    have ha : get_actuator c did aid = Except.error (AppError.actuatorNotFound aid) := by
      simp [get_actuator, hdev, hle]
    simp [actuator_get, liftE, dispatch, ha, AppError.isSanicException, AppError.status,
      AppError.title, AppError.detailStr]

/-- Claim C5 witness: device id 99 against a 2-device registry yields a 404
problem naming the device category and the id 99. -/
theorem c5_witness :
    dispatch (device_get envEx clientTwo 99) =
      ⟨404, Body.problem ⟨"Device Not Found", 404, "99"⟩⟩ :=
  c5_not_found_is_404_with_category_and_id.1 envEx clientTwo 99 rfl (by decide)

/-- Claim C6: an invalid command body is answered by the 422 validation
problem whose errors array lists one entry per offending field (for every
offending field, an entry with that field's pointer is present, and entries
only exist for offending fields), each entry carrying pointer, code and
detail. -/
theorem c6_invalid_payload_422_lists_every_offending_field :
    (∀ errs : List PydErr, (handle_validation_error errs).status = 422) ∧
    (∀ (env : Env) (c : Client) (did aid : Int) (p : ActuatorCommandPayload)
        (hw : CommandOutcome),
        validateActuatorCommand p ≠ [] →
        actuator_post env c did aid p hw =
          HandlerResult.response (handle_validation_error (validateActuatorCommand p))) ∧
    (∀ (env : Env) (c : Client) (did aid : Int) (p : LinearActuatorCommandPayload)
        (hw : CommandOutcome),
        validateLinearActuatorCommand p ≠ [] →
        linear_actuator_post env c did aid p hw =
          HandlerResult.response (handle_validation_error (validateLinearActuatorCommand p))) ∧
    (∀ (env : Env) (c : Client) (did aid : Int) (p : RotatoryActuatorCommandPayload)
        (hw : CommandOutcome),
        validateRotatoryActuatorCommand p ≠ [] →
        rotatory_actuator_post env c did aid p hw =
          HandlerResult.response (handle_validation_error (validateRotatoryActuatorCommand p))) ∧
    (∀ p : ActuatorCommandPayload,
        unitFieldOffends p.intensity ↔
          ∃ e ∈ (validateActuatorCommand p).map toFieldError, e.pointer = "/intensity") ∧
    (∀ p : LinearActuatorCommandPayload,
        durationOffends p.duration ↔
          ∃ e ∈ (validateLinearActuatorCommand p).map toFieldError, e.pointer = "/duration") ∧
    (∀ p : LinearActuatorCommandPayload,
        unitFieldOffends p.position ↔
          ∃ e ∈ (validateLinearActuatorCommand p).map toFieldError, e.pointer = "/position") ∧
    (∀ p : RotatoryActuatorCommandPayload,
        unitFieldOffends p.speed ↔
          ∃ e ∈ (validateRotatoryActuatorCommand p).map toFieldError, e.pointer = "/speed") ∧
    (∀ (loc : String) (v : Option ℚ), ∀ e ∈ (validateUnitFloatField loc v).map toFieldError,
        e.pointer = "/" ++ loc ∧ e.code ≠ "" ∧ e.detail ≠ "") ∧
    (∀ v : Option Int, ∀ e ∈ (validateDurationField v).map toFieldError,
        e.pointer = "/duration" ∧ e.code ≠ "" ∧ e.detail ≠ "") := by
  refine ⟨fun _ => rfl, ?_, ?_, ?_, ?_, ?_, ?_, ?_, ?_, ?_⟩
  · intro env c did aid p hw h
    cases hval : validateActuatorCommand p with
    | nil => exact absurd hval h
    | cons a as => simp [actuator_post, hval]
  · intro env c did aid p hw h
    cases hval : validateLinearActuatorCommand p with
    | nil => exact absurd hval h
    | cons a as => simp [linear_actuator_post, hval]
  · intro env c did aid p hw h
    cases hval : validateRotatoryActuatorCommand p with
    | nil => exact absurd hval h
    | cons a as => simp [rotatory_actuator_post, hval]
  · intro p
    constructor
    · intro hoff
      have hne := (validateUnitFloatField_ne_nil_iff "intensity" p.intensity).mpr hoff
      rcases List.exists_mem_of_ne_nil _ hne with ⟨e, he⟩
      refine ⟨toFieldError e, List.mem_map_of_mem _ he, ?_⟩
      have hloc := validateUnitFloatField_loc "intensity" p.intensity e he
      simp only [toFieldError, hloc]
      decide
    · rintro ⟨e, he, hp⟩
      rcases List.mem_map.mp he with ⟨e', he', rfl⟩
      exact (validateUnitFloatField_ne_nil_iff "intensity" p.intensity).mp
        (List.ne_nil_of_mem he')
  · intro p
    constructor
    · intro hoff
      have hne := (validateDurationField_ne_nil_iff p.duration).mpr hoff
      rcases List.exists_mem_of_ne_nil _ hne with ⟨e, he⟩
      refine ⟨toFieldError e, List.mem_map_of_mem _ (List.mem_append_left _ he), ?_⟩
      have hloc := validateDurationField_loc p.duration e he
      simp only [toFieldError, hloc]
      decide
    · rintro ⟨e, he, hp⟩
      rcases List.mem_map.mp he with ⟨e', he', rfl⟩
      rcases List.mem_append.mp he' with h | h
      · exact (validateDurationField_ne_nil_iff p.duration).mp (List.ne_nil_of_mem h)
      · exfalso
        have hloc := validateUnitFloatField_loc "position" p.position e' h
        simp only [toFieldError, hloc] at hp
        exact absurd hp (by decide)
  · intro p
    constructor
    · intro hoff
      have hne := (validateUnitFloatField_ne_nil_iff "position" p.position).mpr hoff
      rcases List.exists_mem_of_ne_nil _ hne with ⟨e, he⟩
      refine ⟨toFieldError e, List.mem_map_of_mem _ (List.mem_append_right _ he), ?_⟩
      have hloc := validateUnitFloatField_loc "position" p.position e he
      simp only [toFieldError, hloc]
      decide
    · rintro ⟨e, he, hp⟩
      rcases List.mem_map.mp he with ⟨e', he', rfl⟩
      rcases List.mem_append.mp he' with h | h
      · exfalso
        have hloc := validateDurationField_loc p.duration e' h
        simp only [toFieldError, hloc] at hp
        exact absurd hp (by decide)
      · exact (validateUnitFloatField_ne_nil_iff "position" p.position).mp
          (List.ne_nil_of_mem h)
  · intro p
    constructor
    · intro hoff
      have hne := (validateUnitFloatField_ne_nil_iff "speed" p.speed).mpr hoff
      rcases List.exists_mem_of_ne_nil _ hne with ⟨e, he⟩
      refine ⟨toFieldError e, List.mem_map_of_mem _ he, ?_⟩
      have hloc := validateUnitFloatField_loc "speed" p.speed e he
      simp only [toFieldError, hloc]
      decide
    · rintro ⟨e, he, hp⟩
      rcases List.mem_map.mp he with ⟨e', he', rfl⟩
      exact (validateUnitFloatField_ne_nil_iff "speed" p.speed).mp
        (List.ne_nil_of_mem he')
  · intro loc v e he
    rcases List.mem_map.mp he with ⟨e', he', rfl⟩
    have hloc := validateUnitFloatField_loc loc v e' he'
    have hne := validateUnitFloatField_entry_nonempty loc v e' he'
    exact ⟨by simp [toFieldError, hloc], by simpa [toFieldError] using hne.1,
      by simpa [toFieldError] using hne.2⟩
  · intro v e he
    rcases List.mem_map.mp he with ⟨e', he', rfl⟩
    have hloc := validateDurationField_loc v e' he'
    have hne := validateDurationField_entry_nonempty v e' he'
    refine ⟨?_, by simpa [toFieldError] using hne.1, by simpa [toFieldError] using hne.2⟩
    simp only [toFieldError, hloc]
    decide

/-- Claim C6 witness: an actuator command with intensity `3/2` is answered by
the 422 validation problem with an error entry pointing at `/intensity`. -/
theorem c6_witness_intensity_three_halves :
    actuator_post envEx clientEx 0 0 { intensity := some (3/2) } CommandOutcome.ok =
      HandlerResult.response
        (handle_validation_error (validateActuatorCommand { intensity := some (3/2) })) ∧
    ∃ e ∈ (validateActuatorCommand { intensity := some (3/2) }).map toFieldError,
      e.pointer = "/intensity" := by
  constructor
  · refine c6_invalid_payload_422_lists_every_offending_field.2.1 envEx clientEx 0 0 _ _ ?_
    rw [validateActuatorCommand_three_halves]
    exact List.cons_ne_nil _ _
  · exact (c6_invalid_payload_422_lists_every_offending_field.2.2.2.2.1
      { intensity := some (3/2) }).mp (Or.inr ⟨3/2, rfl, Or.inr (by norm_num)⟩)

/-- Claim C7 counterexample: with the backend disconnected, a POST whose body
fails validation is answered 422 (validation runs before the connectivity
check), not with the 502 connection-failed response. -/
theorem c7_counterexample_disconnected_invalid_body_is_422 :
    clientDisc.connected = false ∧
    actuator_post envEx clientDisc 0 0 { intensity := some (3/2) } CommandOutcome.ok =
      HandlerResult.response
        (handle_validation_error (validateActuatorCommand { intensity := some (3/2) })) ∧
    (dispatch
      (actuator_post envEx clientDisc 0 0 { intensity := some (3/2) } CommandOutcome.ok)).status
      = 422 := by
  refine ⟨rfl, ?_, ?_⟩
  · simp [actuator_post, validateActuatorCommand_three_halves]
  · simp [actuator_post, validateActuatorCommand_three_halves, dispatch, handle_validation_error]

/-- Claim C7 as amended: with the backend disconnected, every
registry-resolving endpoint — the GETs, `/scan`, and every POST whose body
passes validation — dispatches to the 502 connection-failed problem. -/
theorem c7_amended_disconnected_yields_502 :
    ∀ (env : Env) (c : Client), c.connected = false →
    ∀ (did sid aid : Int) (outcome : ReadOutcome) (hw : CommandOutcome)
      (pa : ActuatorCommandPayload) (pl : LinearActuatorCommandPayload)
      (pr : RotatoryActuatorCommandPayload),
      dispatch (scan env c) = connectionFailedResponse ∧
      dispatch (devices_get env c) = connectionFailedResponse ∧
      dispatch (device_get env c did) = connectionFailedResponse ∧
      dispatch (sensors_get env c did) = connectionFailedResponse ∧
      dispatch (sensor_get env c did sid) = connectionFailedResponse ∧
      dispatch (sensor_reading_get env c did sid outcome) = connectionFailedResponse ∧
      dispatch (actuators_get env c did) = connectionFailedResponse ∧
      dispatch (actuator_get env c did aid) = connectionFailedResponse ∧
      dispatch (linear_actuators_get env c did) = connectionFailedResponse ∧
      dispatch (linear_actuator_get env c did aid) = connectionFailedResponse ∧
      dispatch (rotatory_actuators_get env c did) = connectionFailedResponse ∧
      dispatch (rotatory_actuator_get env c did aid) = connectionFailedResponse ∧
      (validateActuatorCommand pa = [] →
        dispatch (actuator_post env c did aid pa hw) = connectionFailedResponse) ∧
      (validateLinearActuatorCommand pl = [] →
        dispatch (linear_actuator_post env c did aid pl hw) = connectionFailedResponse) ∧
      (validateRotatoryActuatorCommand pr = [] →
        dispatch (rotatory_actuator_post env c did aid pr hw) = connectionFailedResponse) := by
  intro env c hc did sid aid outcome hw pa pl pr
  refine ⟨?_, ?_, ?_, ?_, ?_, ?_, ?_, ?_, ?_, ?_, ?_, ?_, ?_, ?_, ?_⟩
  · simp [scan, liftE, dispatch, connectionFailedResponse, get_client_disconnected hc,
      AppError.isSanicException, AppError.status, AppError.title, AppError.detailStr]
  · simp [devices_get, liftE, dispatch, connectionFailedResponse, get_client_disconnected hc,
      AppError.isSanicException, AppError.status, AppError.title, AppError.detailStr]
  · simp [device_get, liftE, dispatch, connectionFailedResponse, get_device_disconnected hc,
      AppError.isSanicException, AppError.status, AppError.title, AppError.detailStr]
  · simp [sensors_get, liftE, dispatch, connectionFailedResponse, get_device_disconnected hc,
      AppError.isSanicException, AppError.status, AppError.title, AppError.detailStr]
  · simp [sensor_get, liftE, dispatch, connectionFailedResponse, get_sensor_disconnected hc,
      AppError.isSanicException, AppError.status, AppError.title, AppError.detailStr]
  · simp [sensor_reading_get, dispatch, connectionFailedResponse, get_sensor_disconnected hc,
      AppError.isSanicException, AppError.status, AppError.title, AppError.detailStr]
  · simp [actuators_get, liftE, dispatch, connectionFailedResponse, get_device_disconnected hc,
      AppError.isSanicException, AppError.status, AppError.title, AppError.detailStr]
  · simp [actuator_get, liftE, dispatch, connectionFailedResponse, get_actuator_disconnected hc,
      AppError.isSanicException, AppError.status, AppError.title, AppError.detailStr]
  · simp [linear_actuators_get, liftE, dispatch, connectionFailedResponse,
      get_device_disconnected hc, AppError.isSanicException, AppError.status,
      AppError.title, AppError.detailStr]
  · simp [linear_actuator_get, liftE, dispatch, connectionFailedResponse,
      get_linear_actuator_disconnected hc, AppError.isSanicException, AppError.status,
      AppError.title, AppError.detailStr]
  · simp [rotatory_actuators_get, liftE, dispatch, connectionFailedResponse,
      get_device_disconnected hc, AppError.isSanicException, AppError.status,
      AppError.title, AppError.detailStr]
  · simp [rotatory_actuator_get, liftE, dispatch, connectionFailedResponse,
      get_rotatory_actuator_disconnected hc, AppError.isSanicException, AppError.status,
      AppError.title, AppError.detailStr]
  · intro hval
    simp [actuator_post, hval, liftE, dispatch, connectionFailedResponse,
      get_actuator_disconnected hc, AppError.isSanicException, AppError.status,
      AppError.title, AppError.detailStr]
  · intro hval
    simp [linear_actuator_post, hval, liftE, dispatch, connectionFailedResponse,
      get_linear_actuator_disconnected hc, AppError.isSanicException, AppError.status,
      AppError.title, AppError.detailStr]
  · intro hval
    simp [rotatory_actuator_post, hval, liftE, dispatch, connectionFailedResponse,
      get_rotatory_actuator_disconnected hc, AppError.isSanicException, AppError.status,
      AppError.title, AppError.detailStr]

/-- Claim C7 witness: the amended statement evaluated on a disconnected
client, including a POST with a valid body. -/
theorem c7_amended_witness :
    dispatch (devices_get envEx clientDisc) = connectionFailedResponse ∧
    dispatch (actuator_post envEx clientDisc 0 0 { intensity := some 0 } CommandOutcome.ok) =
      connectionFailedResponse := by
  have h := c7_amended_disconnected_yields_502 envEx clientDisc rfl 0 0 0
    ReadOutcome.timeout CommandOutcome.ok { intensity := some 0 }
    { duration := none, position := none } { speed := none, clockwise := none }
  exact ⟨h.2.1, h.2.2.2.2.2.2.2.2.2.2.2.2.1 validateActuatorCommand_zero⟩

/-- Claim C10: whenever the device dict's key set is not exactly `0..len-1`,
some in-range device id passes `get_device`'s length guard yet misses the
dict, so the lookup fails with an uncaught `KeyError` instead of the
device-not-found condition. -/
theorem c10_nonstandard_keys_give_key_error
    (c : Client) (hconn : c.connected = true)
    (_hnd : (dictKeys c.devices).Nodup)
    (hne : ¬ List.Perm (dictKeys c.devices)
        ((List.range c.devices.length).map Int.ofNat)) :
    ∃ id : Int, 0 ≤ id ∧ id < (c.devices.length : Int) ∧
      get_device c id = Except.error (AppError.keyError id) := by
  by_cases hall : ∀ i : Nat, i < c.devices.length → (Int.ofNat i ∈ dictKeys c.devices)
  · exfalso
    apply hne
    have hsub : ((List.range c.devices.length).map Int.ofNat) ⊆
        dictKeys c.devices := by
      intro x hx
      rcases List.mem_map.mp hx with ⟨n, hn, rfl⟩
      exact hall n (List.mem_range.mp hn)
    have hndr : ((List.range c.devices.length).map Int.ofNat).Nodup :=
      List.Nodup.map (fun a b hab => Int.ofNat.inj hab)
        (List.nodup_range c.devices.length)
    have hsp := List.subperm_of_subset hndr hsub
    have hlen : (dictKeys c.devices).length ≤
        ((List.range c.devices.length).map Int.ofNat).length := by
      simp [dictKeys]
    exact (hsp.perm_of_length_le hlen).symm
  · push_neg at hall
    rcases hall with ⟨i, hilt, hnotmem⟩
    have hnotmem2 : ¬ ((i : Int) ∈ dictKeys c.devices) := by
      simpa using hnotmem
    refine ⟨(i : Int), Int.natCast_nonneg i, by exact_mod_cast hilt, ?_⟩
    have hnle : ¬ ((c.devices.length : Int) ≤ (i : Int)) :=
      not_le.mpr (by exact_mod_cast hilt)
    simp [get_device, get_client, hconn, hnle, dictLookup_eq_none_of_not_mem hnotmem2]

/-- Claim C10 witness: a one-device registry whose key is 1 (not 0) makes
`get_device` raise a `KeyError` for some in-range id. -/
theorem c10_witness :
    ∃ id : Int, 0 ≤ id ∧ id < (clientGap.devices.length : Int) ∧
      get_device clientGap id = Except.error (AppError.keyError id) :=
  c10_nonstandard_keys_give_key_error clientGap rfl (by decide) (by decide)
